import Mathlib

/-!
Verification of the contact-backend extraction pipeline.

Shallow embedding of the core of `src/app/llm_service.py` (the service class
`LLMService`), `src/config.py` and the ad hoc parser in
`src/simple_test_parsing.py`.

Python values flowing through the pipeline (results of `json.loads`, record
fields, fallback tables) are modelled by the inductive type `PyVal`.  A
Python `float` is modelled by the exact rational it denotes; Python
exceptions are modelled by `Except.error` carrying a descriptive message
(the message text is the model's own, Python's wording differs).
-/

/-- Model of a Python runtime value as produced by `json.loads` and passed
through the pipeline.  `dict_v` keeps the insertion order of keys, as Python
dicts do. -/
inductive PyVal where
  | none_v : PyVal
  | bool_v : Bool → PyVal
  | int_v : Int → PyVal
  | float_v : ℚ → PyVal
  | str_v : String → PyVal
  | list_v : List PyVal → PyVal
  | dict_v : List (String × PyVal) → PyVal

open PyVal

/-- The character `{` (written via its code so it never appears literally). -/
def lbrace : Char := Char.ofNat 123

/-- The character `}` (written via its code so it never appears literally). -/
def rbrace : Char := Char.ofNat 125

/-- JSON insignificant whitespace, as skipped by Python `json.loads`. -/
def skipWs : List Char → List Char
  | [] => []
  | c :: cs =>
    if c = ' ' ∨ c = '\t' ∨ c = '\n' ∨ c = '\r' then skipWs cs else c :: cs

/-- Parse the body of a JSON string after the opening quote; returns the
decoded characters and the input remaining after the closing quote.
`\uXXXX` escapes are not modelled (none occur in the repository's data). -/
def parseStringBody : List Char → Option (List Char × List Char)
  | [] => none
  | c :: cs =>
    if c = '"' then some ([], cs)
    else if c = '\\' then
      match cs with
      | [] => none
      | e :: cs2 =>
        let esc : Option Char :=
          if e = '"' then some '"'
          else if e = '\\' then some '\\'
          else if e = '/' then some '/'
          else if e = 'n' then some '\n'
          else if e = 't' then some '\t'
          else if e = 'r' then some '\r'
          else if e = 'b' then some (Char.ofNat 8)
          else if e = 'f' then some (Char.ofNat 12)
          else none
        match esc with
        | some ch => (parseStringBody cs2).map (fun r => (ch :: r.1, r.2))
        | none => none
    else (parseStringBody cs).map (fun r => (c :: r.1, r.2))

/-- Decimal digits to a natural number. -/
def digitsToNat (ds : List Char) : Nat :=
  ds.foldl (fun a c => a * 10 + (c.toNat - 48)) 0

/-- Parse a JSON number.  An integer literal becomes a Python `int`
(arbitrary precision, as in `json.loads`); a literal with a fraction or an
exponent becomes a Python `float`, modelled by the exact rational value. -/
def parseNumber (cs : List Char) : Option (PyVal × List Char) :=
  let (neg, cs1) :=
    match cs with
    | '-' :: r => (true, r)
    | _ => (false, cs)
  let intDigits := cs1.takeWhile Char.isDigit
  let rest1 := cs1.dropWhile Char.isDigit
  if intDigits = [] then none
  else
    let (fracDigits, rest2) :=
      match rest1 with
      | '.' :: r => (some (r.takeWhile Char.isDigit), r.dropWhile Char.isDigit)
      | _ => (none, rest1)
    if fracDigits = some [] then none
    else
      let (expVal, rest3) :=
        match rest2 with
        | c :: r =>
          if c = 'e' ∨ c = 'E' then
            let (eneg, r1) :=
              match r with
              | '-' :: r2 => (true, r2)
              | '+' :: r2 => (false, r2)
              | _ => (false, r)
            let eds := r1.takeWhile Char.isDigit
            if eds = [] then (none, rest2)
            else
              (some ((if eneg then -1 else 1) * (digitsToNat eds : Int)),
               r1.dropWhile Char.isDigit)
          else (some (0 : Int), rest2)
        | [] => (some (0 : Int), rest2)
      match expVal with
      | none => none
      | some e =>
        let sign : ℚ := if neg then -1 else 1
        let ip : ℚ := (digitsToNat intDigits : ℚ)
        match fracDigits, e with
        | none, 0 =>
          some (int_v ((if neg then -1 else 1) * (digitsToNat intDigits : Int)), rest3)
        | none, _ =>
          some (float_v (sign * ip * (10 : ℚ) ^ e), rest3)
        | some fs, _ =>
          let fq : ℚ := (digitsToNat fs : ℚ) / (10 : ℚ) ^ fs.length
          some (float_v (sign * (ip + fq) * (10 : ℚ) ^ e), rest3)

/-- Insert a key into an insertion-ordered dict: a repeated key replaces the
value in place (Python dict assignment), a new key is appended. -/
def dictInsert : List (String × PyVal) → String → PyVal → List (String × PyVal)
  | [], k, v => [(k, v)]
  | (k0, v0) :: rest, k, v =>
    if k0 = k then (k0, v) :: rest else (k0, v0) :: dictInsert rest k v

mutual

/-- Fuel-indexed recursive-descent parser for one JSON value, modelling the
grammar accepted by Python `json.loads`.  Returns the value and the
remaining input. -/
def parseVal : Nat → List Char → Option (PyVal × List Char)
  | 0, _ => none
  | Nat.succ fuel, cs =>
    match skipWs cs with
    | [] => none
    | c :: rest =>
      if c = lbrace then
        match skipWs rest with
        | c2 :: r2 =>
          if c2 = rbrace then some (dict_v [], r2)
          else (parseMembers fuel (c2 :: r2) []).map (fun r => (dict_v r.1, r.2))
        | [] => none
      else if c = '[' then
        match skipWs rest with
        | ']' :: r2 => some (list_v [], r2)
        | r2 => (parseElems fuel r2 []).map (fun r => (list_v r.1, r.2))
      else if c = '"' then
        (parseStringBody rest).map (fun r => (str_v (String.mk r.1), r.2))
      else if c = 't' then
        match rest with
        | 'r' :: 'u' :: 'e' :: r => some (bool_v true, r)
        | _ => none
      else if c = 'f' then
        match rest with
        | 'a' :: 'l' :: 's' :: 'e' :: r => some (bool_v false, r)
        | _ => none
      else if c = 'n' then
        match rest with
        | 'u' :: 'l' :: 'l' :: r => some (none_v, r)
        | _ => none
      else parseNumber (c :: rest)

/-- Comma-separated array elements up to the closing `]`. -/
def parseElems : Nat → List Char → List PyVal → Option (List PyVal × List Char)
  | 0, _, _ => none
  | Nat.succ fuel, cs, acc =>
    match parseVal fuel cs with
    | none => none
    | some (v, rest) =>
      match skipWs rest with
      | ',' :: r2 => parseElems fuel r2 (acc ++ [v])
      | ']' :: r2 => some (acc ++ [v], r2)
      | _ => none

/-- Comma-separated object members up to the closing brace.  A repeated key
overwrites the earlier value in place, as in a Python dict. -/
def parseMembers : Nat → List Char → List (String × PyVal) →
    Option (List (String × PyVal) × List Char)
  | 0, _, _ => none
  | Nat.succ fuel, cs, acc =>
    match skipWs cs with
    | '"' :: rest =>
      match parseStringBody rest with
      | none => none
      | some (kchars, r1) =>
        match skipWs r1 with
        | ':' :: r2 =>
          match parseVal fuel r2 with
          | none => none
          | some (v, r3) =>
            let acc2 := dictInsert acc (String.mk kchars) v
            match skipWs r3 with
            | ',' :: r4 => parseMembers fuel r4 acc2
            | c5 :: r4 => if c5 = rbrace then some (acc2, r4) else none
            | [] => none
        | _ => none
    | _ => none

end

/-- Model of `json.loads`: parse one JSON document, requiring only
whitespace after it (otherwise Python raises `Extra data`).  A parse error
is an `Except.error`, modelling the raised `json.JSONDecodeError`. -/
def json_loads (s : String) : Except String PyVal :=
  match parseVal (s.length + 2) s.data with
  | some (v, rest) =>
    if skipWs rest = [] then Except.ok v else Except.error "Extra data"
  | none => Except.error "Expecting value"


/-! ### Python truthiness, dict access, and string helpers -/

/-- Python truthiness `bool(v)`: `None`, `False`, zero, and empty
containers and strings are falsy. -/
def py_truthy : PyVal → Bool
  | none_v => false
  | bool_v b => b
  | int_v n => decide (n ≠ 0)
  | float_v q => decide (q ≠ 0)
  | str_v s => decide (s ≠ "")
  | list_v xs => !xs.isEmpty
  | dict_v kvs => !kvs.isEmpty

/-- Python `a or b`: the left operand if truthy, otherwise the right. -/
def py_or (a b : PyVal) : PyVal := if py_truthy a then a else b

/-- Python `dict.get(k)`: the value, or `None` when the key is absent. -/
def dict_get (kvs : List (String × PyVal)) (k : String) : PyVal :=
  match kvs.find? (fun p => p.1 == k) with
  | some p => p.2
  | none => none_v

/-- Python `dict.get(k, dflt)`. -/
def dict_getd (kvs : List (String × PyVal)) (k : String) (dflt : PyVal) : PyVal :=
  match kvs.find? (fun p => p.1 == k) with
  | some p => p.2
  | none => dflt

/-- Python `str.strip()`: remove whitespace at both ends. -/
def py_strip (s : String) : String :=
  String.mk (((s.data.dropWhile Char.isWhitespace).reverse.dropWhile
    Char.isWhitespace).reverse)

/-- Python `str.lower()` (ASCII level, which covers the category names). -/
def py_lower (s : String) : String := String.mk (s.data.map Char.toLower)

/-- Splitting loop for `py_split`: left-to-right, non-overlapping matches
of the (non-empty) separator.  The fuel dominates the input length, so the
final fuel-exhausted arm is never reached with the fuel `py_split` uses. -/
def py_split_go (sep : List Char) : Nat → List Char → List Char →
    List (List Char)
  | 0, cs, acc => [acc.reverse ++ cs]
  | Nat.succ fuel, cs, acc =>
    match cs with
    | [] => [acc.reverse]
    | c :: rest =>
      if sep.isPrefixOf cs then
        acc.reverse :: py_split_go sep fuel (cs.drop sep.length) []
      else py_split_go sep fuel rest (c :: acc)

/-- Python `s.split(sep)` for a non-empty separator. -/
def py_split (s sep : String) : List String :=
  (py_split_go sep.data (s.data.length + 1) s.data []).map String.mk

/-- Whether `sub` occurs in `s` (Python `sub in s`), for non-empty `sub`. -/
def hasSubstr (s sub : String) : Bool := 2 ≤ (py_split s sub).length

/-! ### The regex span of strategy 2

`re.search` of the pattern brace-dot-star-brace with `re.DOTALL` finds the
leftmost-then-longest span: it starts at the first opening brace that has a
closing brace somewhere after it, and ends at the last closing brace of the
whole text (greedy `.*`). -/

/-- Index of the last occurrence of `ch` in `cs`. -/
def lastIdx (cs : List Char) (ch : Char) : Option Nat :=
  match cs.reverse.findIdx? (fun c => c = ch) with
  | some i => some (cs.length - 1 - i)
  | none => none

/-- The span matched by `re.search` of brace-dot-star-brace with `DOTALL`
over `s` (the `match.group(0)` of `_parse_llm_response`), if any. -/
def brace_span (s : String) : Option String :=
  let cs := s.data
  match lastIdx cs rbrace with
  | none => none
  | some j =>
    match cs.findIdx? (fun c => c = lbrace) with
    | none => none
    | some i =>
      if i < j then some (String.mk ((cs.drop i).take (j - i + 1))) else none

/-! ### `LLMService._parse_llm_response` (src/app/llm_service.py 185-205) -/

/-- The key-extraction epilogue of `_parse_llm_response`: runs after a
`jsonData` value was obtained.  Python calls `.get` on it, which raises
`AttributeError` when the value is not a dict; the `or` chain falls through
falsy values (`None` for a missing key, but also an empty list). -/
def extract_result (jsonData : PyVal) (fallback_data : PyVal) :
    Except String (PyVal × PyVal) :=
  match jsonData with
  | dict_v kvs =>
    let transformed_data :=
      py_or (dict_get kvs "TRANSFORMED_DATA")
        (py_or (dict_get kvs "FILTERED_DATA")
          (py_or (dict_get kvs "ANALYZED_DATA") fallback_data))
    let explanation := dict_getd kvs "EXPLANATION" (str_v "")
    Except.ok (explanation, transformed_data)
  | _ => Except.error "AttributeError: get"

/-- `LLMService._parse_llm_response`.  The `try` covers only the direct
`json.loads`; a failure there falls back to the regex span, whose own
`json.loads` is unguarded, so its exception propagates (`Except.error`), as
does the `AttributeError` of `.get` on a non-dict value. -/
def _parse_llm_response (response_content : String) (fallback_data : PyVal) :
    Except String (PyVal × PyVal) :=
  match json_loads response_content with
  | Except.ok jsonData => extract_result jsonData fallback_data
  | Except.error _ =>
    match brace_span response_content with
    | some sub =>
      match json_loads sub with
      | Except.ok jsonData => extract_result jsonData fallback_data
      | Except.error e => Except.error e
    | none =>
      Except.ok (str_v "Could not parse LLM response as JSON.", fallback_data)

/-! ### `LLMService.process_data` (src/app/llm_service.py 58-83)

The model invocation (`self.llm.ainvoke`) is an external collaborator: it
is modelled by a parameter `llm_reply`, either the reply text or a raised
error.  `process_data` currently forces the transformation branch for every
intent. -/

/-- `LLMService._transform_data`: invoke the model and parse its reply; any
exception (invocation or parsing) propagates to the caller. -/
def _transform_data (llm_reply : Except String String) (table_data : PyVal) :
    Except String (PyVal × PyVal) :=
  match llm_reply with
  | Except.error e => Except.error e
  | Except.ok content => _parse_llm_response content table_data

/-- The message built by the `except` branch of `process_data`. -/
def error_message_base : String :=
  "I encountered an error while processing your request: "

/-- `LLMService.process_data`: forced transformation branch inside a
`try`; on any exception it returns the error message with `str(e)` appended
and the original `table_data`. -/
def process_data (_intent : String) (llm_reply : Except String String)
    (table_data : PyVal) : PyVal × PyVal :=
  match _transform_data llm_reply table_data with
  | Except.ok r => r
  | Except.error e => (str_v (error_message_base ++ e), table_data)

/-! ### `LLMService.classify_intent` (src/app/llm_service.py 28-56) -/

/-- `settings.INTENT_CATEGORIES` (src/config.py 33-37): only the
transformation category is enabled, the other two are commented out. -/
def INTENT_CATEGORIES : List String := ["data_transformation"]

/-- `LLMService.classify_intent`: trim and lowercase the model reply, check
membership in the category list, default to the first category on
non-membership; the surrounding `try` also maps any invocation failure to
the first category. -/
def classify_intent (llm_reply : Except String String) : String :=
  match llm_reply with
  | Except.error _ => INTENT_CATEGORIES.headD ""
  | Except.ok content =>
    let intent := py_lower (py_strip content)
    if intent ∈ INTENT_CATEGORIES then intent else INTENT_CATEGORIES.headD ""

/-! ### `LLMService._normalize_contact_signals` (src/app/llm_service.py 209-226) -/

/-- A record: one Python dict, insertion-ordered, keys distinct. -/
abbrev Record := List (String × PyVal)

/-- A table: a Python list of record dicts. -/
abbrev Table := List Record

/-- A table as the `PyVal` the extraction layer passes around. -/
def table_to_pyval (t : Table) : PyVal := list_v (t.map dict_v)

/-- Model of Python `int(s)` for a string: surrounding whitespace and one
sign are accepted, then decimal digits; anything else raises `ValueError`.
(Digit-group underscores are not modelled.) -/
def py_int_of_string (s : String) : Except String Int :=
  let t := ((s.data.dropWhile Char.isWhitespace).reverse.dropWhile
    Char.isWhitespace).reverse
  let (neg, ds) :=
    match t with
    | '-' :: r => (true, r)
    | '+' :: r => (false, r)
    | _ => (false, t)
  if ds ≠ [] ∧ ds.all Char.isDigit then
    Except.ok ((if neg then -1 else 1) * (digitsToNat ds : Int))
  else Except.error "ValueError: invalid literal for int with base 10"

/-- Model of Python `int(f)` for a float: truncation toward zero. -/
def rat_trunc (q : ℚ) : Int := if 0 ≤ q then ⌊q⌋ else ⌈q⌉

/-- One field of the coercion table of `_normalize_contact_signals`.
`confidence`: `int(value) if isinstance(value, (str, float))` — note a
Python `bool` is an `int`, not a `str`/`float`, so it passes through here.
`actionTaken`/`isNew`: `bool(value) if isinstance(value, (str, int))` — a
Python `bool` IS an `int`, so it is re-coerced (to itself).
`timestamp`: `str(value) if isinstance(value, str)`, the identity on
strings.  Any other key passes through. -/
def normalize_value (key : String) (value : PyVal) : Except String PyVal :=
  if key = "confidence" then
    match value with
    | str_v s => (py_int_of_string s).map int_v
    | float_v q => Except.ok (int_v (rat_trunc q))
    | v => Except.ok v
  else if key = "actionTaken" ∨ key = "isNew" then
    match value with
    | str_v s => Except.ok (bool_v (decide (s ≠ "")))
    | int_v n => Except.ok (bool_v (decide (n ≠ 0)))
    | bool_v b => Except.ok (bool_v b)
    | v => Except.ok v
  else if key = "timestamp" then
    match value with
    | str_v s => Except.ok (str_v s)
    | v => Except.ok v
  else Except.ok value

/-- The inner loop of `_normalize_contact_signals` over one record's
items, in insertion order; the first failing coercion raises. -/
def normalize_item : Record → Except String Record
  | [] => Except.ok []
  | (k, v) :: rest =>
    match normalize_value k v with
    | Except.error e => Except.error e
    | Except.ok v2 =>
      match normalize_item rest with
      | Except.error e => Except.error e
      | Except.ok rest2 => Except.ok ((k, v2) :: rest2)

/-- `LLMService._normalize_contact_signals`: normalize each record of the
table in order. -/
def _normalize_contact_signals : Table → Except String Table
  | [] => Except.ok []
  | item :: rest =>
    match normalize_item item with
    | Except.error e => Except.error e
    | Except.ok item2 =>
      match _normalize_contact_signals rest with
      | Except.error e => Except.error e
      | Except.ok rest2 => Except.ok (item2 :: rest2)

/-! ### `parse_llm_response` of the ad hoc script
(src/simple_test_parsing.py 35-72): marker-anchored bracket balancing for
the `TRANSFORMED_DATA:` marker only. -/

/-- The bracket-counting loop: enumerate the characters after the first
opening bracket; at each closing bracket that returns the count to zero,
try `json.loads` on the slice up to it; on success return the value, on a
decode error keep scanning. -/
def scan_go (full : List Char) : List Char → Nat → Int → Option PyVal
  | [], _, _ => none
  | c :: rest, i, count =>
    if c = '[' then scan_go full rest (i + 1) (count + 1)
    else if c = ']' then
      if count - 1 = 0 then
        match json_loads (String.mk (full.take (i + 1))) with
        | Except.ok v => some v
        | Except.error _ => scan_go full rest (i + 1) (count - 1)
      else scan_go full rest (i + 1) (count - 1)
    else scan_go full rest (i + 1) count

/-- `parse_llm_response` of `simple_test_parsing.py`: explanation from the
text after the last `EXPLANATION:` marker (default otherwise); data from
the first bracket-balanced array after the first `TRANSFORMED_DATA:`
marker, with the fallback data when the marker, the bracket, or a parseable
slice is missing. -/
def parse_llm_response (response_content : String) (fallback_data : PyVal) :
    String × PyVal :=
  let explanation :=
    if hasSubstr response_content "EXPLANATION:" then
      py_strip ((py_split response_content "EXPLANATION:").getLastD "")
    else "Data processed successfully."
  if hasSubstr response_content "TRANSFORMED_DATA:" then
    match (py_split response_content "TRANSFORMED_DATA:").get? 1 with
    | some after =>
      match after.data.findIdx? (fun c => c = '[') with
      | some bstart =>
        let sub := after.data.drop bstart
        match scan_go sub sub 0 0 with
        | some v => (explanation, v)
        | none => (explanation, fallback_data)
      | none => (explanation, fallback_data)
    | none => (explanation, fallback_data)
  else (explanation, fallback_data)

/-! ### Helper lemmas for the Type Normalizer -/

/-- A successful coercion is a fixed point of the same coercion. -/
theorem normalize_value_idem {k : String} {v w : PyVal}
    (h : normalize_value k v = Except.ok w) :
    normalize_value k w = Except.ok w := by
  by_cases h1 : k = "confidence"
  · subst h1
    cases v with
    | str_v s =>
      simp only [normalize_value, reduceIte] at h ⊢
      cases hpi : py_int_of_string s with
      | error e => rw [hpi] at h; simp [Except.map] at h
      | ok n =>
        rw [hpi] at h
        simp only [Except.map, Except.ok.injEq] at h
        subst h
        rfl
    | none_v => injection h with h2; subst h2; rfl
    | bool_v b => injection h with h2; subst h2; rfl
    | int_v n => injection h with h2; subst h2; rfl
    | float_v q => injection h with h2; subst h2; rfl
    | list_v xs => injection h with h2; subst h2; rfl
    | dict_v kvs => injection h with h2; subst h2; rfl
  · by_cases h2 : k = "actionTaken" ∨ k = "isNew"
    · simp only [normalize_value, if_neg h1, if_pos h2] at h ⊢
      cases v with
      | str_v s => injection h with h3; subst h3; rfl
      | none_v => injection h with h3; subst h3; rfl
      | bool_v b => injection h with h3; subst h3; rfl
      | int_v n => injection h with h3; subst h3; rfl
      | float_v q => injection h with h3; subst h3; rfl
      | list_v xs => injection h with h3; subst h3; rfl
      | dict_v kvs => injection h with h3; subst h3; rfl
    · by_cases h3 : k = "timestamp"
      · subst h3
        cases v with
        | str_v s => injection h with h4; subst h4; rfl
        | none_v => injection h with h4; subst h4; rfl
        | bool_v b => injection h with h4; subst h4; rfl
        | int_v n => injection h with h4; subst h4; rfl
        | float_v q => injection h with h4; subst h4; rfl
        | list_v xs => injection h with h4; subst h4; rfl
        | dict_v kvs => injection h with h4; subst h4; rfl
      · simp only [normalize_value, if_neg h1, if_neg h2, if_neg h3] at h ⊢

/-- A successfully normalized record is a fixed point of `normalize_item`. -/
theorem normalize_item_idem : ∀ {r r' : Record},
    normalize_item r = Except.ok r' → normalize_item r' = Except.ok r'
  | [], r', h => by
    simp only [normalize_item] at h
    cases h
    rfl
  | (k, v) :: rest, r', h => by
    simp only [normalize_item] at h
    cases hv : normalize_value k v with
    | error e => rw [hv] at h; exact absurd h (by simp)
    | ok v2 =>
      rw [hv] at h
      cases hr : normalize_item rest with
      | error e => rw [hr] at h; exact absurd h (by simp)
      | ok rest2 =>
        rw [hr] at h
        cases h
        simp only [normalize_item]
        rw [normalize_value_idem hv, normalize_item_idem hr]

/-- `normalize_item` keeps the keys, in order (hence also the field
count). -/
theorem normalize_item_keys : ∀ {r r' : Record},
    normalize_item r = Except.ok r' → r'.map Prod.fst = r.map Prod.fst
  | [], r', h => by
    simp only [normalize_item] at h
    cases h
    rfl
  | (k, v) :: rest, r', h => by
    simp only [normalize_item] at h
    cases hv : normalize_value k v with
    | error e => rw [hv] at h; exact absurd h (by simp)
    | ok v2 =>
      rw [hv] at h
      cases hr : normalize_item rest with
      | error e => rw [hr] at h; exact absurd h (by simp)
      | ok rest2 =>
        rw [hr] at h
        cases h
        simp only [List.map]
        rw [normalize_item_keys hr]

/-- A successfully normalized table is a fixed point of the normalizer. -/
theorem normalize_table_idem : ∀ {T T' : Table},
    _normalize_contact_signals T = Except.ok T' →
    _normalize_contact_signals T' = Except.ok T'
  | [], T', h => by
    simp only [_normalize_contact_signals] at h
    cases h
    rfl
  | item :: rest, T', h => by
    simp only [_normalize_contact_signals] at h
    cases hi : normalize_item item with
    | error e => rw [hi] at h; exact absurd h (by simp)
    | ok item2 =>
      rw [hi] at h
      cases hr : _normalize_contact_signals rest with
      | error e => rw [hr] at h; exact absurd h (by simp)
      | ok rest2 =>
        rw [hr] at h
        cases h
        simp only [_normalize_contact_signals]
        rw [normalize_item_idem hi, normalize_table_idem hr]

/-- The normalizer preserves the record count, and record by record the
keys in order. -/
theorem normalize_table_shape : ∀ {T T' : Table},
    _normalize_contact_signals T = Except.ok T' →
    T'.length = T.length ∧
      List.Forall₂ (fun r r' : Record => r'.map Prod.fst = r.map Prod.fst) T T'
  | [], T', h => by
    simp only [_normalize_contact_signals] at h
    cases h
    exact ⟨rfl, List.Forall₂.nil⟩
  | item :: rest, T', h => by
    simp only [_normalize_contact_signals] at h
    cases hi : normalize_item item with
    | error e => rw [hi] at h; exact absurd h (by simp)
    | ok item2 =>
      rw [hi] at h
      cases hr : _normalize_contact_signals rest with
      | error e => rw [hr] at h; exact absurd h (by simp)
      | ok rest2 =>
        rw [hr] at h
        cases h
        have ih := normalize_table_shape hr
        exact ⟨by simp [ih.1], List.Forall₂.cons (normalize_item_keys hi) ih.2⟩

/-! ### The claims -/

/-- C1: the Response Extractor is claimed total — never raising, and in the
worst case returning the fixed default explanation with the fallback table
exactly unchanged.  The code violates the never-raises half: when the
direct parse fails and the regex finds a brace span that itself is not
valid JSON, the unguarded `json.loads` on the span raises and the exception
escapes `_parse_llm_response` (first conjunct, the error models the raised
`JSONDecodeError`).  The genuinely braceless worst case does return the
fixed default and the untouched fallback (second conjunct). -/
theorem c1_extractor_raises_on_bad_brace_span :
    _parse_llm_response "\x7boops\x7d" (table_to_pyval [[("a", int_v 1)]]) =
      Except.error "Expecting value" ∧
    _parse_llm_response "no json here" (table_to_pyval [[("a", int_v 1)]]) =
      Except.ok (str_v "Could not parse LLM response as JSON.",
        table_to_pyval [[("a", int_v 1)]]) :=
  ⟨rfl, rfl⟩

/-- C2: for prose around a marker-anchored well-formed array the extractor
is claimed to return the array decoded from the isolated bracket-balanced
substring.  The deployed `_parse_llm_response` has no marker strategy at
all: on such input its regex strategy isolates the inner object span
instead, the data keys are absent there, and the or-chain yields the
original fallback table (first conjunct), which differs from the direct
decode of the isolated substring (second and fourth conjuncts).  The ad hoc
script parser `parse_llm_response` does implement the claimed behaviour for
the `TRANSFORMED_DATA:` marker (third conjunct). -/
theorem c2_service_extractor_has_no_marker_strategy :
    _parse_llm_response
        "Here is the result TRANSFORMED_DATA: [\x7b\"a\": 1\x7d] thanks"
        (table_to_pyval [[("b", int_v 2)]]) =
      Except.ok (str_v "", table_to_pyval [[("b", int_v 2)]]) ∧
    json_loads "[\x7b\"a\": 1\x7d]" =
      Except.ok (list_v [dict_v [("a", int_v 1)]]) ∧
    parse_llm_response
        "Here is the result TRANSFORMED_DATA: [\x7b\"a\": 1\x7d] thanks"
        (table_to_pyval [[("b", int_v 2)]]) =
      ("Data processed successfully.", list_v [dict_v [("a", int_v 1)]]) ∧
    table_to_pyval [[("b", int_v 2)]] ≠ list_v [dict_v [("a", int_v 1)]] :=
  ⟨rfl, rfl, rfl, by simp [table_to_pyval]⟩

/-- C3 counterexample: a successful pipeline run whose extracted records
hold `confidence` as a string returns those records as-is; the normalized
form (with `confidence` coerced to an integer) differs, so the response
records are NOT the normalized form of the extracted records. -/
theorem c3_counterexample :
    process_data "data_transformation"
        (Except.ok "\x7b\"TRANSFORMED_DATA\": [\x7b\"confidence\": \"80\"\x7d], \"EXPLANATION\": \"ok\"\x7d")
        (table_to_pyval []) =
      (str_v "ok", table_to_pyval [[("confidence", str_v "80")]]) ∧
    _normalize_contact_signals [[("confidence", str_v "80")]] =
      Except.ok [[("confidence", int_v 80)]] ∧
    table_to_pyval [[("confidence", int_v 80)]] ≠
      table_to_pyval [[("confidence", str_v "80")]] :=
  ⟨rfl, rfl, by simp [table_to_pyval]⟩

/-- C3 amended: the Normalize stage does not exist in the pipeline:
`_normalize_contact_signals` is defined but never invoked, so on the
success path `process_data` returns exactly what `_parse_llm_response`
extracted and the state sequence is Classify, BuildPrompt, Invoke,
Extract, Done. -/
theorem c3_pipeline_returns_extracted_unnormalized
    (intent text : String) (table : PyVal) (r : PyVal × PyVal)
    (h : _parse_llm_response text table = Except.ok r) :
    process_data intent (Except.ok text) table = r := by
  simp only [process_data, _transform_data]
  rw [h]

theorem c3_witness :
    process_data "data_transformation"
        (Except.ok "\x7b\"TRANSFORMED_DATA\": [\x7b\"a\": 1\x7d]\x7d") (list_v []) =
      (str_v "", list_v [dict_v [("a", int_v 1)]]) :=
  c3_pipeline_returns_extracted_unnormalized "data_transformation"
    "\x7b\"TRANSFORMED_DATA\": [\x7b\"a\": 1\x7d]\x7d" (list_v [])
    (str_v "", list_v [dict_v [("a", int_v 1)]]) rfl

/-- C4 counterexample: when the reply is an object whose `TRANSFORMED_DATA`
key holds the empty array, the extractor returns the fallback table, not
the empty array the claim demands. -/
theorem c4_counterexample :
    _parse_llm_response "\x7b\"TRANSFORMED_DATA\": []\x7d"
        (table_to_pyval [[("b", int_v 2)]]) =
      Except.ok (str_v "", table_to_pyval [[("b", int_v 2)]]) ∧
    table_to_pyval [[("b", int_v 2)]] ≠ list_v [] :=
  ⟨rfl, by simp [table_to_pyval]⟩

/-- C4 amended: the or-chain of `_parse_llm_response` tests Python
truthiness, so a present-but-EMPTY `TRANSFORMED_DATA` array is skipped like
a missing key: with the other data keys absent the extractor returns the
fallback table, not the empty array. -/
theorem c4_empty_array_falls_through
    (raw : String) (kvs : List (String × PyVal)) (fb : PyVal)
    (h : json_loads raw = Except.ok (dict_v kvs))
    (h1 : dict_get kvs "TRANSFORMED_DATA" = list_v [])
    (h2 : dict_get kvs "FILTERED_DATA" = none_v)
    (h3 : dict_get kvs "ANALYZED_DATA" = none_v) :
    _parse_llm_response raw fb =
      Except.ok (dict_getd kvs "EXPLANATION" (str_v ""), fb) := by
  unfold _parse_llm_response
  rw [h]
  simp only [extract_result]
  rw [h1, h2, h3]
  simp [py_or, py_truthy]

theorem c4_witness :
    _parse_llm_response "\x7b\"TRANSFORMED_DATA\": []\x7d" (list_v [int_v 9]) =
      Except.ok
        (dict_getd [("TRANSFORMED_DATA", list_v [])] "EXPLANATION" (str_v ""),
         list_v [int_v 9]) :=
  c4_empty_array_falls_through "\x7b\"TRANSFORMED_DATA\": []\x7d"
    [("TRANSFORMED_DATA", list_v [])] (list_v [int_v 9]) rfl rfl rfl rfl

/-- C5 counterexample: a reply that parses as an object carrying the data
key but no `EXPLANATION` key yields the EMPTY string as the explanation —
not a non-empty placeholder — refuting the claim that the explanation is
never empty. -/
theorem c5_counterexample :
    _parse_llm_response "\x7b\"TRANSFORMED_DATA\": [\x7b\"a\": 1\x7d]\x7d"
        (list_v []) =
      Except.ok (str_v "", list_v [dict_v [("a", int_v 1)]]) :=
  rfl

/-- C5 amended: on the object path the explanation defaults to the empty
string when the `EXPLANATION` key is absent (`.get("EXPLANATION", "")`);
the fixed non-empty message appears only on the total-fallback path, where
the direct parse failed and no brace span exists. -/
theorem c5_explanation_defaults :
    (∀ (raw : String) (kvs : List (String × PyVal)) (fb : PyVal)
        (p : PyVal × PyVal),
      json_loads raw = Except.ok (dict_v kvs) →
      List.find? (fun q => q.1 == "EXPLANATION") kvs = none →
      _parse_llm_response raw fb = Except.ok p → p.1 = str_v "") ∧
    (∀ (raw : String) (fb : PyVal) (e : String),
      json_loads raw = Except.error e → brace_span raw = none →
      _parse_llm_response raw fb =
        Except.ok (str_v "Could not parse LLM response as JSON.", fb)) := by
  constructor
  · intro raw kvs fb p h hfind hp
    unfold _parse_llm_response at hp
    rw [h] at hp
    simp only [extract_result] at hp
    injection hp with hp
    subst hp
    simp [dict_getd, hfind]
  · intro raw fb e h hspan
    unfold _parse_llm_response
    rw [h, hspan]

theorem c5_witness :
    ((str_v "", list_v [dict_v [("a", int_v 1)]]) : PyVal × PyVal).1 =
      str_v "" ∧
    _parse_llm_response "not parseable at all" (list_v [int_v 3]) =
      Except.ok (str_v "Could not parse LLM response as JSON.",
        list_v [int_v 3]) :=
  ⟨c5_explanation_defaults.1 "\x7b\"TRANSFORMED_DATA\": [\x7b\"a\": 1\x7d]\x7d"
      [("TRANSFORMED_DATA", list_v [dict_v [("a", int_v 1)]])] (list_v [])
      (str_v "", list_v [dict_v [("a", int_v 1)]]) rfl rfl rfl,
   c5_explanation_defaults.2 "not parseable at all" (list_v [int_v 3])
      "Expecting value" rfl rfl⟩

/-- C6: any failure of the processing stage — a model invocation error, or
an exception escaping response parsing — is caught by `process_data`, which
returns the fixed message with the triggering error text appended and the
original input table exactly unchanged. -/
theorem c6_failure_returns_original_table :
    (∀ (intent e : String) (table : PyVal),
      process_data intent (Except.error e) table =
        (str_v (error_message_base ++ e), table)) ∧
    (∀ (intent text e : String) (table : PyVal),
      _parse_llm_response text table = Except.error e →
      process_data intent (Except.ok text) table =
        (str_v (error_message_base ++ e), table)) := by
  constructor
  · intro intent e table
    rfl
  · intro intent text e table h
    simp only [process_data, _transform_data]
    rw [h]

theorem c6_witness :
    process_data "data_transformation" (Except.ok "\x7bbad\x7d")
        (list_v [int_v 1]) =
      (str_v (error_message_base ++ "Expecting value"), list_v [int_v 1]) :=
  c6_failure_returns_original_table.2 "data_transformation" "\x7bbad\x7d"
    "Expecting value" (list_v [int_v 1]) rfl

/-- C7: classification is total and always lands in the configured category
set; a non-member reply, the empty reply, and an invocation failure all map
to the first category of `INTENT_CATEGORIES`. -/
theorem c7_classify_default :
    (∀ r : Except String String, classify_intent r ∈ INTENT_CATEGORIES) ∧
    (∀ s : String, py_lower (py_strip s) ∉ INTENT_CATEGORIES →
      classify_intent (Except.ok s) = INTENT_CATEGORIES.headD "") ∧
    classify_intent (Except.ok "") = INTENT_CATEGORIES.headD "" ∧
    (∀ e : String,
      classify_intent (Except.error e) = INTENT_CATEGORIES.headD "") := by
  refine ⟨?_, ?_, rfl, fun e => rfl⟩
  · intro r
    cases r with
    | error e => simp [classify_intent, INTENT_CATEGORIES]
    | ok content =>
      simp only [classify_intent]
      by_cases h : py_lower (py_strip content) ∈ INTENT_CATEGORIES
      · rw [if_pos h]
        exact h
      · rw [if_neg h]
        simp [INTENT_CATEGORIES]
  · intro s h
    simp only [classify_intent]
    rw [if_neg h]

theorem c7_witness :
    py_lower (py_strip "banana") ∉ INTENT_CATEGORIES ∧
    classify_intent (Except.ok "banana") = INTENT_CATEGORIES.headD "" :=
  ⟨by decide, c7_classify_default.2.1 "banana" (by decide)⟩

/-- C8: the claim says invalid coercions pass through leaving the value
unchanged; in the code `int(value)` on a non-numeric `confidence` string
raises `ValueError` (modelled as `Except.error`), aborting normalization
(first conjunct).  The boolean and timestamp coercions are total (second
conjunct). -/
theorem c8_invalid_confidence_raises :
    _normalize_contact_signals [[("confidence", str_v "abc")]] =
      Except.error "ValueError: invalid literal for int with base 10" ∧
    _normalize_contact_signals
        [[("actionTaken", str_v "maybe"), ("isNew", int_v 7),
          ("timestamp", str_v "2025-08-20"), ("note", none_v)]] =
      Except.ok [[("actionTaken", bool_v true), ("isNew", bool_v true),
        ("timestamp", str_v "2025-08-20"), ("note", none_v)]] :=
  ⟨rfl, rfl⟩

/-- C9: the Type Normalizer is idempotent — composing it with itself in the
exception monad equals a single application — and every successful
application preserves the number of records and, record by record, the keys
in order (hence also each record's field count). -/
theorem c9_normalize_idempotent :
    (∀ T : Table,
      (_normalize_contact_signals T).bind _normalize_contact_signals =
        _normalize_contact_signals T) ∧
    (∀ T T' : Table, _normalize_contact_signals T = Except.ok T' →
      T'.length = T.length ∧
        List.Forall₂ (fun r r' : Record => r'.map Prod.fst = r.map Prod.fst)
          T T') := by
  constructor
  · intro T
    cases h : _normalize_contact_signals T with
    | error e => rfl
    | ok T' => exact normalize_table_idem h
  · intro T T' h
    exact normalize_table_shape h

theorem c9_witness :
    ([[("confidence", int_v 80)]] : Table).length =
      ([[("confidence", str_v "80")]] : Table).length ∧
    List.Forall₂ (fun r r' : Record => r'.map Prod.fst = r.map Prod.fst)
      [[("confidence", str_v "80")]] [[("confidence", int_v 80)]] :=
  c9_normalize_idempotent.2 [[("confidence", str_v "80")]]
    [[("confidence", int_v 80)]] rfl

/-- C10: the boolean coercion for `actionTaken` and `isNew` is Python
truthiness `bool(value)`: every non-empty string — including "false" — and
every nonzero integer becomes `True`. -/
theorem c10_truthiness_bool :
    (∀ s : String, s ≠ "" →
      _normalize_contact_signals [[("actionTaken", str_v s)]] =
        Except.ok [[("actionTaken", bool_v true)]]) ∧
    (∀ n : Int, n ≠ 0 →
      _normalize_contact_signals [[("isNew", int_v n)]] =
        Except.ok [[("isNew", bool_v true)]]) ∧
    _normalize_contact_signals [[("actionTaken", str_v "false")]] =
      Except.ok [[("actionTaken", bool_v true)]] := by
  refine ⟨?_, ?_, rfl⟩
  · intro s hs
    have hd : decide (s ≠ "") = true := decide_eq_true hs
    simp [_normalize_contact_signals, normalize_item, normalize_value, hd]
  · intro n hn
    have hd : decide (n ≠ 0) = true := decide_eq_true hn
    simp [_normalize_contact_signals, normalize_item, normalize_value, hd]

theorem c10_witness :
    ("false" : String) ≠ "" ∧ (2 : Int) ≠ 0 ∧
    _normalize_contact_signals [[("actionTaken", str_v "false")]] =
      Except.ok [[("actionTaken", bool_v true)]] ∧
    _normalize_contact_signals [[("isNew", int_v 2)]] =
      Except.ok [[("isNew", bool_v true)]] :=
  ⟨by decide, by decide, c10_truthiness_bool.1 "false" (by decide),
   c10_truthiness_bool.2.1 2 (by decide)⟩
